import Mathlib

/-!
Verification development for the ton-eth-bridge-relay repository.

The Rust sources are shallowly embedded as Lean definitions:

* `calculate_times_from_max_delay` (relay-utils/src/lib.rs and
  src/utils/retry.rs) is modelled over the real numbers; the final
  `as u32` saturating cast is modelled by `Int.toNat` followed by
  clamping at `2 ^ 32 - 1`.
* The EVM scanner (relay-eth/src/lib.rs): `log_to_event`,
  `process_block`, the block-batch step of `spawn_blocks_scanner`,
  `check_transaction` and `generate_fixed_config`.  Hashes and
  addresses are modelled as natural numbers; `Duration` values are
  modelled as whole nanoseconds where sub-second precision matters.
* The TON subscriber (src/engine/ton_subscriber/mod.rs): per-account
  `StateSubscription` entries, status updates, and the retention pass
  of `handle_shard_block`.  Weak references are modelled by their
  strong count; the watch channel is modelled by its receiver count
  (the subscription always owns one receiver itself).
* The staking controller (src/engine/staking/mod.rs): the startup
  `should_vote` computation and the action list performed by
  `process_staking_event`.
* The persistent-state watcher (src/engine/bridge/persistent_state.rs):
  `get_event` and `scan_for_block` over the unconfirmed-events tree.
  A Rust panic (from `expect`) is modelled as `Except.error`.
-/

/-! ## Retry engine (relay-utils/src/lib.rs lines 140-159) -/

/-- Embeds the `saturation_steps` computation of
`calculate_times_from_max_delay`: the floor of
`log10((maximum_delay - start_delay) / start_delay) / log10(fraction)`. -/
noncomputable def saturation_steps (start_delay fraction maximum_delay : ℝ) : ℤ :=
  ⌊Real.logb 10 ((maximum_delay - start_delay) / start_delay) / Real.logb 10 fraction⌋

/-- Embeds the `time_to_saturate` computation:
`start_delay * (1 - fraction ^ saturation_steps) / (1 - fraction)`.
The exponent is the (integral) float `saturation_steps`, so the power is a
real power of an integer cast. -/
noncomputable def time_to_saturate (start_delay fraction maximum_delay : ℝ) : ℝ :=
  start_delay * (1 - fraction ^ ((saturation_steps start_delay fraction maximum_delay : ℤ) : ℝ)) /
    (1 - fraction)

/-- Embeds `calculate_times_from_max_delay` from relay-utils/src/lib.rs
(also duplicated in src/utils/retry.rs).  The function computes
`remaining_time = total_retry_time - time_to_saturate`,
`steps = remaining_time / maximum_delay`, and returns
`(steps + saturation_steps).ceil() as u32`.  The Rust float-to-integer
`as u32` cast saturates: negative values become `0` (modelled by
`Int.toNat`) and values above `u32::MAX` become `u32::MAX` (modelled by
`min _ (2 ^ 32 - 1)`). -/
noncomputable def calculate_times_from_max_delay
    (start_delay fraction maximum_delay total_retry_time : ℝ) : ℕ :=
  min
    (Int.toNat
      ⌈(total_retry_time - time_to_saturate start_delay fraction maximum_delay) / maximum_delay +
          ((saturation_steps start_delay fraction maximum_delay : ℤ) : ℝ)⌉)
    (2 ^ 32 - 1)

/-- The closed-form attempt count stated by the specification (section 4.2):
`ceil((total_time - T_sat) / cap) + N_sat`.  This follows the words of the
spec, to be compared with `calculate_times_from_max_delay`. -/
noncomputable def retry_time_formula
    (start_delay fraction maximum_delay total_retry_time : ℝ) : ℤ :=
  ⌈(total_retry_time - time_to_saturate start_delay fraction maximum_delay) / maximum_delay⌉ +
    saturation_steps start_delay fraction maximum_delay

/-! ## EVM scanner data model (relay-eth/src/lib.rs) -/

/-- The fields of `web3::types::Log` read by `EthListener::log_to_event`.
Hashes and addresses are natural numbers. -/
structure EvmLog where
  address : ℕ
  topics : List ℕ
  data : List ℕ
  transaction_hash : Option ℕ
  block_number : Option ℕ
  log_index : Option ℕ
  block_hash : Option ℕ
deriving DecidableEq

/-- Embeds the `Event` struct of relay-eth/src/lib.rs (lines 584-594).
The Rust struct derives `PartialEq`/`Eq`, i.e. full field-wise structural
equality, which the Lean structure equality models. -/
structure Event where
  address : ℕ
  data : List ℕ
  tx_hash : ℕ
  topics : List ℕ
  event_index : ℕ
  block_number : ℕ
  block_hash : ℕ
deriving DecidableEq

/-- Embeds `EthListener::log_to_event` (relay-eth/src/lib.rs lines 316-363).
A missing transaction hash, block number or block hash is an error; a
missing `log_index` is replaced by `0` (the code logs a warning). -/
def log_to_event (log : EvmLog) : Except String Event :=
  match log.transaction_hash with
  | none => Except.error "No tx hash in log"
  | some hash =>
    match log.block_number with
    | none => Except.error "No block number in log!"
    | some block_number =>
      let event_index : ℕ :=
        match log.log_index with
        | some a => a
        | none => 0
      match log.block_hash with
      | none => Except.error "No hash in log"
      | some block_hash =>
        Except.ok
          { address := log.address
            data := log.data
            tx_hash := hash
            topics := log.topics
            event_index := event_index
            block_number := block_number
            block_hash := block_hash }

/-- Embeds `EthListener::process_block` (relay-eth/src/lib.rs lines 518-581)
as a pure function.  The first component records whether an `eth_getLogs`
request was made; the second is the sequence sent on the event stream
(both successful events and conversion errors are forwarded, and the loop
continues after each).  `fetched_logs` stands for the logs the node would
return for the block range.  If both the address set and the topic set are
empty the function refuses to scan: no request, no events. -/
def process_block (addresses topics : List ℕ) (fetched_logs : List EvmLog) :
    Bool × List (Except String Event) :=
  if addresses.isEmpty && topics.isEmpty then (false, [])
  else (true, fetched_logs.map log_to_event)

/-- Little-endian byte encoding of a `u64` height, embedding
`height.to_le_bytes()` as used by `update_eth_state`
(relay-eth/src/lib.rs lines 596-599). -/
def u64_le_bytes (n : ℕ) : List ℕ :=
  (List.range 8).map (fun i => n / 256 ^ i % 256)

/-- Embeds one iteration of the scanner loop in
`EthListener::spawn_blocks_scanner` (relay-eth/src/lib.rs lines 481-511)
after the node height has been fetched.  Input: the current scanned
height, the node height, and the stored cursor bytes.  If
`loaded_height >= ethereum_actual_height` the loop sleeps and changes
nothing; otherwise it processes the batch, sets
`loaded_height = ethereum_actual_height`, persists it via
`update_eth_state` (little-endian `u64`) and stores it into
`scanned_height`. -/
def scanner_step (scanned_height actual_height : ℕ) (stored_cursor : List ℕ) :
    ℕ × List ℕ :=
  if actual_height ≤ scanned_height then (scanned_height, stored_cursor)
  else (actual_height, u64_le_bytes actual_height)

/-- The fields of `web3::types::TransactionReceipt` read by
`EthListener::check_transaction`. -/
structure TransactionReceipt where
  status : Option ℕ
  logs : List EvmLog
deriving DecidableEq

/-- Embeds `logs.into_iter().map(log_to_event).collect::<Result<Vec<_>, _>>()`
from `check_transaction`: decoding short-circuits at the first failing log. -/
def collect_events : List EvmLog → Except String (List Event)
  | [] => Except.ok []
  | l :: rest =>
    match log_to_event l with
    | Except.error e => Except.error e
    | Except.ok ev =>
      match collect_events rest with
      | Except.error e => Except.error e
      | Except.ok evs => Except.ok (ev :: evs)

/-- Embeds `EthListener::check_transaction` (relay-eth/src/lib.rs lines
184-250), given the receipt the node returned for `hash` (`none` when the
node has no receipt).  Missing receipt, missing status and zero status are
errors; then every log is decoded (short-circuiting on failure) and the
first event matching `(hash, event_index)` is returned. -/
def check_transaction (receipt : Option TransactionReceipt) (hash event_index : ℕ) :
    Except String Event :=
  match receipt with
  | none => Except.error "No transactions found by hash. Assuming it is fake"
  | some r =>
    match r.status with
    | none => Except.error "No status field in eth node answer"
    | some s =>
      if s = 0 then Except.error "Tx has failed status"
      else
        match collect_events r.logs with
        | Except.error e =>
          Except.error ("No events for tx. Assuming confirmation is fake.: " ++ e)
        | Except.ok events =>
          match events.find? (fun x => x.tx_hash == hash && x.event_index == event_index) with
          | some a => Except.ok a
          | none => Except.error "No events for tx. Assuming confirmation is fake."

/-- `Duration::as_secs` for a duration given in whole nanoseconds. -/
def duration_as_secs (nanos : ℕ) : ℕ :=
  nanos / 1000000000

/-- Embeds `generate_fixed_config` (relay-eth/src/lib.rs lines 622-630).
`times = total_time.as_secs() / sleep_time.as_secs()` panics with a
division by zero when `sleep_time.as_secs() = 0` (Rust integer division);
the following `try_into::<u32>().expect("Overflow")` panics when the
quotient exceeds `u32::MAX`.  Panics are modelled as `Except.error`; the
successful result is the attempt count paired with the fixed backoff
`sleep_time`. -/
def generate_fixed_config (sleep_time_nanos total_time_nanos : ℕ) :
    Except String (ℕ × ℕ) :=
  if duration_as_secs sleep_time_nanos = 0 then
    Except.error "attempt to divide by zero"
  else if duration_as_secs total_time_nanos / duration_as_secs sleep_time_nanos < 2 ^ 32 then
    Except.ok (duration_as_secs total_time_nanos / duration_as_secs sleep_time_nanos,
      sleep_time_nanos)
  else Except.error "Overflow"

/-- Boolean success test for `Except` results. -/
def is_ok_result {α : Type} (r : Except String α) : Bool :=
  match r with
  | Except.ok _ => true
  | Except.error _ => false

/-! ## TON subscriber (src/engine/ton_subscriber/mod.rs) -/

/-- A weak reference to a `TransactionsSubscription` handler, modelled by
the strong count of its holder (`Weak::strong_count`); the handler is live
iff the count is positive. -/
structure TransactionsSubscriptionRef where
  strong_count : ℕ
deriving DecidableEq

/-- Embeds `StateSubscription` (src/engine/ton_subscriber/mod.rs lines
246-250).  The watch channel is modelled by its receiver count; the
subscription stores its own `state_rx`, so the count is at least 1 and
external account-state observers make it exceed 1. -/
structure StateSubscription where
  receiver_count : ℕ
  transaction_subscriptions : List TransactionsSubscriptionRef
deriving DecidableEq

/-- Embeds the `StateSubscriptionStatus` enum. -/
inductive StateSubscriptionStatus where
  | alive
  | partlyAlive
  | stopped
deriving DecidableEq

/-- The pruning half of `StateSubscription::update_status` (lines 252-264):
`transaction_subscriptions.retain(|item| item.strong_count() > 0)`. -/
def prune_subscriptions (s : StateSubscription) : StateSubscription :=
  { s with
    transaction_subscriptions :=
      s.transaction_subscriptions.filter (fun t => 0 < t.strong_count) }

/-- The status half of `StateSubscription::update_status`: `Alive` when the
channel has an external receiver (`receiver_count > 1`), else `PartlyAlive`
when some transaction subscription remains, else `Stopped`. -/
def subscription_status (s : StateSubscription) : StateSubscriptionStatus :=
  if 1 < s.receiver_count then StateSubscriptionStatus.alive
  else if s.transaction_subscriptions.isEmpty then StateSubscriptionStatus.stopped
  else StateSubscriptionStatus.partlyAlive

/-- Embeds the retention pass of `TonSubscriber::handle_shard_block`
(src/engine/ton_subscriber/mod.rs lines 159-206) over the
`state_subscriptions` map, as a `filterMap` on its entries.  For every
entry `update_status` first prunes dead transaction subscriptions and a
`Stopped` entry is dropped; an account outside the block shard is kept
unchanged; for a contained `Alive` entry the current account state is sent
on the watch channel and the entry is dropped only if the send fails,
which happens exactly when no receiver is left (never, since the entry
owns one receiver).  Handler errors inside `handle_block` are logged and
do not affect retention. -/
def handle_shard_block (entries : List (ℕ × StateSubscription))
    (shard_contains : ℕ → Bool) : List (ℕ × StateSubscription) :=
  entries.filterMap (fun e =>
    if subscription_status (prune_subscriptions e.2) = StateSubscriptionStatus.stopped then
      none
    else if shard_contains e.1 = false then some (e.1, prune_subscriptions e.2)
    else if subscription_status (prune_subscriptions e.2) = StateSubscriptionStatus.alive then
      if 1 ≤ (prune_subscriptions e.2).receiver_count then some (e.1, prune_subscriptions e.2)
      else none
    else some (e.1, prune_subscriptions e.2))

/-! ## Staking controller (src/engine/staking/mod.rs) -/

/-- Embeds the `ElectionsState` enum (src/engine/staking/mod.rs lines
559-564). -/
inductive ElectionsState where
  | notStarted (start_time : ℕ)
  | started (start_time end_time : ℕ)
  | finished
deriving DecidableEq

/-- Embeds the `should_vote` computation of `Staking::new` (lines 55-68):
in the `Started` state the node votes iff the elections contract staker
set does not contain its staker account; in every other state it does not
vote at startup.  `Staking::new` then submits `becomeRelayNextRound` iff
this returns `true`. -/
def should_vote (elections_state : ElectionsState) (staker_addrs : List ℕ)
    (staker_account : ℕ) : Bool :=
  match elections_state with
  | ElectionsState.started _ _ => !(staker_addrs.contains staker_account)
  | _ => false

/-- Embeds the `StakingEvent` enum (payloads reduced to the fields the
handler uses). -/
inductive StakingEvent where
  | electionStarted (round_num : ℕ)
  | electionEnded (round_num : ℕ)
  | relayRoundInitialized (round_num round_end_time : ℕ)
  | relayConfigUpdated
deriving DecidableEq

/-- The actions `Staking::process_staking_event` performs. -/
inductive StakingAction where
  | notifyElectionsStart
  | spawnBecomeRelayNextRound
  | notifyElectionsEnd
  | notifyRelayRoundStarted
  | spawnRewardCollection (round_num : ℕ)
  | notifyTimingsChanged
deriving DecidableEq

/-- Embeds the event dispatch of `Staking::process_staking_event`
(src/engine/staking/mod.rs lines 126-173): on `ElectionStarted` it
notifies waiters and spawns a task submitting `becomeRelayNextRound`
(without consulting the staker set); the other events only notify or
schedule reward collection. -/
def process_staking_event : StakingEvent → List StakingAction
  | StakingEvent.electionStarted _ =>
    [StakingAction.notifyElectionsStart, StakingAction.spawnBecomeRelayNextRound]
  | StakingEvent.electionEnded _ => [StakingAction.notifyElectionsEnd]
  | StakingEvent.relayRoundInitialized n _ =>
    [StakingAction.notifyRelayRoundStarted, StakingAction.spawnRewardCollection n]
  | StakingEvent.relayConfigUpdated => [StakingAction.notifyTimingsChanged]

/-! ## Persistent state watcher (src/engine/bridge/persistent_state.rs) -/

/-- Modelled from the spec: the `ExtendedEventInfo` struct lives in
src/engine/bridge/ton_config_listener.rs, which is not among the provided
sources; the spec describes the `pending_ton_events` value as a serialized
`ExtendedEventInfo` keyed by the EVM transaction hash, and
`scan_for_block` filters it by `data.event_block_number`.  Only those two
fields are modelled. -/
structure ExtendedEventInfo where
  ethereum_event_transaction : ℕ
  event_block_number : ℕ
deriving DecidableEq

/-- Modelled from the spec: the bincode wire encoding is an opaque codec.
This toy codec is injective and leaves some byte strings undecodable,
which is all the corruption claims need. -/
def serialize_event_info (e : ExtendedEventInfo) : List ℕ :=
  [e.ethereum_event_transaction, e.event_block_number]

/-- Partial inverse of `serialize_event_info`; returns `none` on a
corrupted (undecodable) value. -/
def deserialize_event_info : List ℕ → Option ExtendedEventInfo
  | [h, b] => some { ethereum_event_transaction := h, event_block_number := b }
  | _ => none

/-- Embeds `TonWatcher::get_event` (src/engine/bridge/persistent_state.rs
lines 52-57) given the bytes stored under the key (`none` when absent).
The code runs `deserialize(&x).expect("Shouldnt fail")` on the stored
value, so an undecodable value hits the `expect` and panics; the panic is
modelled as `Except.error`. -/
def get_event (stored_value : Option (List ℕ)) :
    Except String (Option ExtendedEventInfo) :=
  match stored_value with
  | none => Except.ok none
  | some bytes =>
    match deserialize_event_info bytes with
    | some info => Except.ok (some info)
    | none => Except.error "Shouldnt fail"

/-- Embeds `TonWatcher::scan_for_block` (lines 59-74) over the stored
values of the unconfirmed-events tree.  A storage-layer read error is
logged ("Bad value in ...") and skipped; each remaining value is
deserialized and failures are skipped (`filter_map(|x| x.ok())`); the
survivors are filtered by block number. -/
def scan_for_block (stored_values : List (Except String (List ℕ)))
    (block_number : ℕ) : List ExtendedEventInfo :=
  ((stored_values.filterMap (fun x =>
      match x with
      | Except.ok a => some a
      | Except.error _ => none)).filterMap
    (fun bytes => deserialize_event_info bytes)).filter
    (fun info => info.event_block_number == block_number)

/-! ## Concrete sample inputs used by counterexamples and witnesses -/

/-- A log carrying a transaction hash and a block hash but no block
number. -/
def log_missing_block_number : EvmLog :=
  { address := 0, topics := [], data := [], transaction_hash := some 1,
    block_number := none, log_index := some 0, block_hash := some 2 }

/-- A log whose only missing field is `log_index`. -/
def log_missing_log_index : EvmLog :=
  { address := 3, topics := [4], data := [7], transaction_hash := some 8,
    block_number := some 20, log_index := none, block_hash := some 6 }

/-- A log with every optional field absent; `log_to_event` fails on it. -/
def undecodable_log : EvmLog :=
  { address := 0, topics := [], data := [], transaction_hash := none,
    block_number := none, log_index := none, block_hash := none }

/-- A well-formed log for transaction hash 5, log index 0. -/
def matching_log : EvmLog :=
  { address := 1, topics := [2], data := [], transaction_hash := some 5,
    block_number := some 50, log_index := some 0, block_hash := some 9 }

/-- The event `log_to_event` produces from `matching_log`. -/
def matching_event : Event :=
  { address := 1, data := [], tx_hash := 5, topics := [2], event_index := 0,
    block_number := 50, block_hash := 9 }

/-- A successful receipt holding one undecodable log and one decodable
matching log. -/
def mixed_receipt : TransactionReceipt :=
  { status := some 1, logs := [undecodable_log, matching_log] }

/-- A successful receipt whose only log decodes to `matching_event`. -/
def clean_receipt : TransactionReceipt :=
  { status := some 1, logs := [matching_log] }

/-- A receipt with no status field. -/
def receipt_no_status : TransactionReceipt :=
  { status := none, logs := [matching_log] }

/-- A receipt with failed (zero) status. -/
def receipt_failed : TransactionReceipt :=
  { status := some 0, logs := [matching_log] }

/-- Two events that agree on `(tx_hash, event_index)` but differ in
`block_number`. -/
def event_sample_a : Event :=
  { address := 1, data := [], tx_hash := 5, topics := [], event_index := 0,
    block_number := 10, block_hash := 3 }

/-- See `event_sample_a`. -/
def event_sample_b : Event :=
  { address := 1, data := [], tx_hash := 5, topics := [], event_index := 0,
    block_number := 11, block_hash := 3 }

/-- An account entry with one external state observer and one live plus one
dead transaction subscription. -/
def subscription_entry_live : ℕ × StateSubscription :=
  (1, { receiver_count := 2,
        transaction_subscriptions := [{ strong_count := 1 }, { strong_count := 0 }] })

/-- An account entry with no external observer and only a dead transaction
subscription: `Stopped` after pruning. -/
def subscription_entry_dead : ℕ × StateSubscription :=
  (2, { receiver_count := 1, transaction_subscriptions := [{ strong_count := 0 }] })

/-- The pruned form of `subscription_entry_live` retained by
`handle_shard_block`. -/
def subscription_entry_retained : ℕ × StateSubscription :=
  (1, { receiver_count := 2, transaction_subscriptions := [{ strong_count := 1 }] })

/-! ## C2: scanner cursor after a processed batch -/

/-- C2, claim as stated is false: after successfully processing the batch
`[current_height, h]` the scanner stores `h`, not `h + 1`.  At
`scanned_height = 0`, node height `h = 5`, the step yields `(5, LE(5))`
and not `(6, LE(6))`. -/
theorem scanner_cursor_claim_counterexample :
    0 < 5 ∧ scanner_step 0 5 [] = (5, u64_le_bytes 5) ∧
      scanner_step 0 5 [] ≠ (5 + 1, u64_le_bytes (5 + 1)) := by
  refine ⟨by decide, by decide, by decide⟩

/-- C2 (corrected): for every successfully processed batch
`[current_height, h]` (that is, `scanned_height < h`), the scanner sets
`current_height` to `h` and persists the cursor as the little-endian u64
encoding of `h`; after the batch the stored cursor equals `h`, the last
scanned block height. -/
theorem scanner_cursor_stores_last_scanned_height
    (scanned_height actual_height : ℕ) (stored_cursor : List ℕ)
    (h : scanned_height < actual_height) :
    scanner_step scanned_height actual_height stored_cursor =
      (actual_height, u64_le_bytes actual_height) := by
  unfold scanner_step
  rw [if_neg (by omega)]

/-- Witness for `scanner_cursor_stores_last_scanned_height` at
`scanned_height = 3`, `h = 10`. -/
theorem scanner_cursor_stores_last_scanned_height_witness :
    3 < 10 ∧ scanner_step 3 10 [1] = (10, u64_le_bytes 10) :=
  ⟨by decide, scanner_cursor_stores_last_scanned_height 3 10 [1] (by decide)⟩

/-! ## C3: event equality -/

/-- C3, claim as stated is false: `event_sample_a` and `event_sample_b`
agree on `(tx_hash, event_index)` yet are unequal, because the derived
equality of `Event` compares every field. -/
theorem evm_event_pair_equality_counterexample :
    event_sample_a.tx_hash = event_sample_b.tx_hash ∧
      event_sample_a.event_index = event_sample_b.event_index ∧
      event_sample_a ≠ event_sample_b := by
  decide

/-- C3 (corrected): two `Event` values are equal iff all seven fields
match (derived structural equality); agreement on `(tx_hash, log_index)`
alone does not suffice, though equality clearly implies it. -/
theorem evm_event_equality_fieldwise (a b : Event) :
    a = b ↔ (a.address = b.address ∧ a.data = b.data ∧ a.tx_hash = b.tx_hash ∧
      a.topics = b.topics ∧ a.event_index = b.event_index ∧
      a.block_number = b.block_number ∧ a.block_hash = b.block_hash) := by
  cases a
  cases b
  simp

/-! ## C4: cowardly refusal on empty subscription set -/

/-- C4 (confirmed): when both the address set and the topic set are empty,
`process_block` makes no `eth_getLogs` request and emits nothing; with any
subscription present, the request is made. -/
theorem empty_subscription_cowardly_refusal
    (addresses topics : List ℕ) (fetched_logs : List EvmLog) :
    ((addresses = [] ∧ topics = []) →
      process_block addresses topics fetched_logs = (false, [])) ∧
    ((addresses ≠ [] ∨ topics ≠ []) →
      (process_block addresses topics fetched_logs).1 = true) := by
  constructor
  · rintro ⟨rfl, rfl⟩
    rfl
  · intro h
    cases addresses <;> cases topics <;> simp_all [process_block]

/-- Witness for `empty_subscription_cowardly_refusal`: empty sets refuse
even with a pending log; a single address suffices to scan. -/
theorem empty_subscription_cowardly_refusal_witness :
    process_block [] [] [log_missing_block_number] = (false, []) ∧
      (process_block [1] [] []).1 = true :=
  ⟨(empty_subscription_cowardly_refusal [] [] [log_missing_block_number]).1 ⟨rfl, rfl⟩,
   (empty_subscription_cowardly_refusal [1] [] []).2 (Or.inl (by decide))⟩

/-! ## C5: log conversion errors -/

/-- C5, claim as stated is false: `log_missing_block_number` lacks neither
a transaction hash nor a block hash, yet `log_to_event` rejects it,
because a missing block number is also an error. -/
theorem log_to_event_error_condition_counterexample :
    log_missing_block_number.transaction_hash ≠ none ∧
      log_missing_block_number.block_hash ≠ none ∧
      is_ok_result (log_to_event log_missing_block_number) = false := by
  decide

/-- C5 (corrected): `log_to_event` returns an error exactly when the log
lacks a transaction hash, a block number, or a block hash; a log missing
only `log_index` converts successfully with `event_index = 0` (plus a
warning); and `process_block` forwards every conversion result (errors
included) to the event stream without aborting the scan. -/
theorem log_to_event_error_characterization :
    (∀ log : EvmLog, is_ok_result (log_to_event log) = true ↔
        (log.transaction_hash ≠ none ∧ log.block_number ≠ none ∧ log.block_hash ≠ none)) ∧
    (∀ (log : EvmLog) (h n b : ℕ), log.transaction_hash = some h →
        log.block_number = some n → log.block_hash = some b → log.log_index = none →
        log_to_event log = Except.ok
          { address := log.address, data := log.data, tx_hash := h, topics := log.topics,
            event_index := 0, block_number := n, block_hash := b }) ∧
    (∀ (addresses topics : List ℕ) (fetched_logs : List EvmLog),
        (addresses ≠ [] ∨ topics ≠ []) →
        (process_block addresses topics fetched_logs).2 = fetched_logs.map log_to_event) := by
  refine ⟨?_, ?_, ?_⟩
  · rintro ⟨a, t, d, tx, bn, li, bh⟩
    cases tx <;> cases bn <;> cases bh <;> cases li <;>
      simp [log_to_event, is_ok_result]
  · rintro ⟨a, t, d, tx, bn, li, bh⟩ h n b htx hbn hbh hli
    simp only at htx hbn hbh hli
    subst htx
    subst hbn
    subst hbh
    subst hli
    rfl
  · intro addresses topics fetched_logs h
    cases addresses <;> cases topics <;> simp_all [process_block]

/-- Witness for `log_to_event_error_characterization` at
`log_missing_log_index`. -/
theorem log_to_event_error_characterization_witness :
    (is_ok_result (log_to_event log_missing_log_index) = true ↔
      (log_missing_log_index.transaction_hash ≠ none ∧
        log_missing_log_index.block_number ≠ none ∧
        log_missing_log_index.block_hash ≠ none)) ∧
    log_to_event log_missing_log_index = Except.ok
      { address := 3, data := [7], tx_hash := 8, topics := [4], event_index := 0,
        block_number := 20, block_hash := 6 } ∧
    (process_block [1] [] [log_missing_log_index]).2 = [log_missing_log_index].map log_to_event :=
  ⟨log_to_event_error_characterization.1 log_missing_log_index,
   log_to_event_error_characterization.2.1 log_missing_log_index 8 20 6 rfl rfl rfl rfl,
   log_to_event_error_characterization.2.2 [1] [] [log_missing_log_index] (Or.inl (by decide))⟩

/-! ## C6: check_transaction -/

/-- Every event produced by a successful `collect_events` run decodes from
one of the input logs. -/
theorem collect_events_mem {logs : List EvmLog} {evs : List Event}
    (h : collect_events logs = Except.ok evs) :
    ∀ e ∈ evs, ∃ l ∈ logs, log_to_event l = Except.ok e := by
  induction logs generalizing evs with
  | nil =>
    unfold collect_events at h
    injection h with h
    subst h
    intro e he
    cases he
  | cons l rest ih =>
    unfold collect_events at h
    cases hl : log_to_event l with
    | error msg => rw [hl] at h; cases h
    | ok ev =>
      rw [hl] at h
      cases hr : collect_events rest with
      | error msg => rw [hr] at h; cases h
      | ok evs2 =>
        rw [hr] at h
        injection h with h
        subst h
        intro e he
        rcases List.mem_cons.1 he with he | he
        · exact ⟨l, List.mem_cons_self l rest, he ▸ hl⟩
        · obtain ⟨l2, hl2, h2⟩ := ih hr e he
          exact ⟨l2, List.mem_cons_of_mem l hl2, h2⟩

/-- C6, claim as stated is false: `mixed_receipt` has a successful status
and contains a decodable log matching `(5, 0)`, yet `check_transaction`
returns an error, because decoding of its other (undecodable) log
short-circuits the whole receipt. -/
theorem check_transaction_claim_counterexample :
    mixed_receipt.status = some 1 ∧
      matching_log ∈ mixed_receipt.logs ∧
      log_to_event matching_log = Except.ok matching_event ∧
      matching_event.tx_hash = 5 ∧ matching_event.event_index = 0 ∧
      is_ok_result (check_transaction (some mixed_receipt) 5 0) = false := by
  exact ⟨rfl, by decide, rfl, rfl, rfl, rfl⟩

/-- C6 (corrected): `check_transaction` errors when the receipt is
missing, when the status field is absent, when the status is 0, and also
when any log of the receipt fails to decode; otherwise it returns the
first decoded event matching `(hash, event_index)`, or a precise error
when none matches.  Every returned event matches the arguments and
decodes from a log of the receipt. -/
theorem check_transaction_characterization :
    (∀ hash idx : ℕ, check_transaction none hash idx =
        Except.error "No transactions found by hash. Assuming it is fake") ∧
    (∀ (r : TransactionReceipt) (hash idx : ℕ), r.status = none →
        check_transaction (some r) hash idx =
          Except.error "No status field in eth node answer") ∧
    (∀ (r : TransactionReceipt) (hash idx : ℕ), r.status = some 0 →
        check_transaction (some r) hash idx = Except.error "Tx has failed status") ∧
    (∀ (r : TransactionReceipt) (hash idx s : ℕ) (err : String),
        r.status = some s → s ≠ 0 → collect_events r.logs = Except.error err →
        check_transaction (some r) hash idx =
          Except.error ("No events for tx. Assuming confirmation is fake.: " ++ err)) ∧
    (∀ (r : TransactionReceipt) (hash idx s : ℕ) (evs : List Event) (e : Event),
        r.status = some s → s ≠ 0 → collect_events r.logs = Except.ok evs →
        evs.find? (fun x => x.tx_hash == hash && x.event_index == idx) = some e →
        check_transaction (some r) hash idx = Except.ok e) ∧
    (∀ (r : TransactionReceipt) (hash idx s : ℕ) (evs : List Event),
        r.status = some s → s ≠ 0 → collect_events r.logs = Except.ok evs →
        evs.find? (fun x => x.tx_hash == hash && x.event_index == idx) = none →
        check_transaction (some r) hash idx =
          Except.error "No events for tx. Assuming confirmation is fake.") ∧
    (∀ (r : TransactionReceipt) (hash idx : ℕ) (e : Event),
        check_transaction (some r) hash idx = Except.ok e →
        e.tx_hash = hash ∧ e.event_index = idx ∧
          ∃ l ∈ r.logs, log_to_event l = Except.ok e) := by
  refine ⟨fun hash idx => rfl, ?_, ?_, ?_, ?_, ?_, ?_⟩
  · intro r hash idx hst
    simp [check_transaction, hst]
  · intro r hash idx hst
    simp [check_transaction, hst]
  · intro r hash idx s err hst hs hc
    simp [check_transaction, hst, hs, hc]
  · intro r hash idx s evs e hst hs hc hf
    simp [check_transaction, hst, hs, hc, hf]
  · intro r hash idx s evs hst hs hc hf
    simp [check_transaction, hst, hs, hc, hf]
  · intro r hash idx e h
    cases hst : r.status with
    | none => simp [check_transaction, hst] at h
    | some s =>
      by_cases hs : s = 0
      · simp [check_transaction, hst, hs] at h
      · simp only [check_transaction, hst, if_neg hs] at h
        cases hc : collect_events r.logs with
        | error msg => rw [hc] at h; cases h
        | ok evs =>
          rw [hc] at h
          simp only [] at h
          cases hf : evs.find? (fun x => x.tx_hash == hash && x.event_index == idx) with
          | none => rw [hf] at h; cases h
          | some a =>
            rw [hf] at h
            injection h with h
            subst h
            have hp := List.find?_some hf
            have hmem := List.mem_of_find?_eq_some hf
            simp only [Bool.and_eq_true, beq_iff_eq] at hp
            exact ⟨hp.1, hp.2, collect_events_mem hc a hmem⟩

/-- Witness for `check_transaction_characterization` on the sample
receipts. -/
theorem check_transaction_characterization_witness :
    check_transaction none 5 0 =
        Except.error "No transactions found by hash. Assuming it is fake" ∧
      check_transaction (some receipt_no_status) 5 0 =
        Except.error "No status field in eth node answer" ∧
      check_transaction (some receipt_failed) 5 0 = Except.error "Tx has failed status" ∧
      check_transaction (some mixed_receipt) 5 0 =
        Except.error ("No events for tx. Assuming confirmation is fake.: " ++ "No tx hash in log") ∧
      check_transaction (some clean_receipt) 5 0 = Except.ok matching_event :=
  ⟨check_transaction_characterization.1 5 0,
   check_transaction_characterization.2.1 receipt_no_status 5 0 rfl,
   check_transaction_characterization.2.2.1 receipt_failed 5 0 rfl,
   check_transaction_characterization.2.2.2.1 mixed_receipt 5 0 1 "No tx hash in log" rfl
     (by decide) rfl,
   check_transaction_characterization.2.2.2.2.1 clean_receipt 5 0 1 [matching_event]
     matching_event rfl (by decide) rfl (by decide)⟩

/-! ## C7: liveness of retained subscription entries -/

/-- Every transaction subscription surviving the pruning pass is live. -/
theorem prune_subscriptions_live (s : StateSubscription) :
    ∀ t ∈ (prune_subscriptions s).transaction_subscriptions, 0 < t.strong_count := by
  intro t ht
  have := List.mem_filter.1 ht
  simpa using this.2

/-- A non-`Stopped` subscription has an external observer or a remaining
transaction subscription. -/
theorem subscription_status_not_stopped (s : StateSubscription)
    (h : subscription_status s ≠ StateSubscriptionStatus.stopped) :
    1 < s.receiver_count ∨ s.transaction_subscriptions ≠ [] := by
  by_cases h1 : 1 < s.receiver_count
  · exact Or.inl h1
  · right
    intro hnil
    apply h
    simp [subscription_status, if_neg h1, hnil]

/-- C7 (confirmed): after the TON subscriber processes a shard block,
every retained per-account entry is non-`Stopped`: it has an external
account-state observer (`receiver_count > 1`) or a nonempty list of
transaction subscriptions, all of whose weak handlers are live (dead ones
were pruned by `update_status`); an entry with neither is removed during
the block pass. -/
theorem shard_block_retains_only_live_entries
    (entries : List (ℕ × StateSubscription)) (shard_contains : ℕ → Bool)
    (e : ℕ × StateSubscription) (he : e ∈ handle_shard_block entries shard_contains) :
    subscription_status e.2 ≠ StateSubscriptionStatus.stopped ∧
      (1 < e.2.receiver_count ∨ e.2.transaction_subscriptions ≠ []) ∧
      (∀ t ∈ e.2.transaction_subscriptions, 0 < t.strong_count) := by
  unfold handle_shard_block at he
  rw [List.mem_filterMap] at he
  obtain ⟨a, ha, hfa⟩ := he
  by_cases hst : subscription_status (prune_subscriptions a.2) = StateSubscriptionStatus.stopped
  · rw [if_pos hst] at hfa
    cases hfa
  · rw [if_neg hst] at hfa
    have hep : e = (a.1, prune_subscriptions a.2) := by
      by_cases hsc : shard_contains a.1 = false
      · rw [if_pos hsc] at hfa
        exact (Option.some.injEq _ _ ▸ hfa).symm
      · rw [if_neg hsc] at hfa
        by_cases hal :
            subscription_status (prune_subscriptions a.2) = StateSubscriptionStatus.alive
        · rw [if_pos hal] at hfa
          by_cases hrc : 1 ≤ (prune_subscriptions a.2).receiver_count
          · rw [if_pos hrc] at hfa
            exact (Option.some.injEq _ _ ▸ hfa).symm
          · rw [if_neg hrc] at hfa
            cases hfa
        · rw [if_neg hal] at hfa
          exact (Option.some.injEq _ _ ▸ hfa).symm
    rw [hep]
    exact ⟨hst, subscription_status_not_stopped _ hst, prune_subscriptions_live a.2⟩

/-- Witness for `shard_block_retains_only_live_entries`: from one live
and one dead entry, the retained entry keeps its live observer and its
pruned, live transaction subscription. -/
theorem shard_block_retains_only_live_entries_witness :
    subscription_status subscription_entry_retained.2 ≠ StateSubscriptionStatus.stopped ∧
      (1 < subscription_entry_retained.2.receiver_count ∨
        subscription_entry_retained.2.transaction_subscriptions ≠ []) ∧
      (∀ t ∈ subscription_entry_retained.2.transaction_subscriptions, 0 < t.strong_count) :=
  shard_block_retains_only_live_entries
    [subscription_entry_live, subscription_entry_dead] (fun _ => true)
    subscription_entry_retained (by decide)

/-! ## C8: becoming relay next round -/

/-- C8, claim as stated is false: with the staker account already in the
elections staker set, startup correctly skips the vote, but an
`ElectionStarted` event still spawns the `becomeRelayNextRound`
submission, so on the event path the message is not submitted "iff the
staker set does not contain the account". -/
theorem become_relay_submission_counterexample :
    (7 : ℕ) ∈ [(7 : ℕ)] ∧
      should_vote (ElectionsState.started 0 10) [7] 7 = false ∧
      StakingAction.spawnBecomeRelayNextRound ∈
        process_staking_event (StakingEvent.electionStarted 3) := by
  decide

/-- C8 (corrected): at startup in the `Started` state the
`becomeRelayNextRound` message is submitted iff the elections contract
staker set does not contain the node staker account (and never in the
other states); on an observed `ElectionStarted` event the submission is
spawned unconditionally, without consulting the staker set. -/
theorem become_relay_submission_behavior :
    (∀ (start_time end_time staker_account : ℕ) (staker_addrs : List ℕ),
        should_vote (ElectionsState.started start_time end_time) staker_addrs staker_account =
            true ↔
          staker_account ∉ staker_addrs) ∧
    (∀ (start_time staker_account : ℕ) (staker_addrs : List ℕ),
        should_vote (ElectionsState.notStarted start_time) staker_addrs staker_account = false) ∧
    (∀ (staker_account : ℕ) (staker_addrs : List ℕ),
        should_vote ElectionsState.finished staker_addrs staker_account = false) ∧
    (∀ round_num : ℕ,
        StakingAction.spawnBecomeRelayNextRound ∈
          process_staking_event (StakingEvent.electionStarted round_num)) := by
  refine ⟨?_, fun _ _ _ => rfl, fun _ _ => rfl, ?_⟩
  · intro s en staker addrs
    simp [should_vote, List.contains]
  · intro n
    exact List.Mem.tail _ (List.Mem.head _)

/-! ## C9: corruption handling in the persistent watcher -/

/-- C9, code bug: on an undecodable stored value `get_event` hits
`expect` and panics (modelled as `Except.error`) instead of skipping the
item, while `scan_for_block` skips both storage-read errors and
undecodable values and returns the surviving events, as the spec requires
of both. -/
theorem ton_watcher_corruption_behavior :
    get_event (some []) = Except.error "Shouldnt fail" ∧
      get_event (some (serialize_event_info
          { ethereum_event_transaction := 5, event_block_number := 12 })) =
        Except.ok (some { ethereum_event_transaction := 5, event_block_number := 12 }) ∧
      scan_for_block
          [Except.ok [],
            Except.ok (serialize_event_info
              { ethereum_event_transaction := 5, event_block_number := 12 }),
            Except.error "io"] 12 =
        [{ ethereum_event_transaction := 5, event_block_number := 12 }] :=
  ⟨rfl, rfl, rfl⟩

/-! ## C10: fixed retry config -/

/-- C10, claim as stated is false in its second half: with a one-second
poll interval and a total budget of `2 ^ 32` seconds the quotient no
longer fits in `u32`, so `generate_fixed_config` panics with "Overflow"
instead of returning the attempt count. -/
theorem generate_fixed_config_claim_counterexample :
    1000000000 ≤ (1000000000 : ℕ) ∧
      generate_fixed_config 1000000000 4294967296000000000 = Except.error "Overflow" :=
  ⟨le_refl _, rfl⟩

/-- C10 (corrected): `generate_fixed_config` panics with a division by
zero for every `sleep_time` shorter than one second; for a `sleep_time`
of at least one second it returns `floor(total_secs / sleep_secs)`
attempts with fixed backoff `sleep_time` whenever that quotient fits in
`u32`, and panics with "Overflow" otherwise. -/
theorem generate_fixed_config_behavior :
    (∀ sleep_time_nanos total_time_nanos : ℕ, sleep_time_nanos < 1000000000 →
        generate_fixed_config sleep_time_nanos total_time_nanos =
          Except.error "attempt to divide by zero") ∧
    (∀ sleep_time_nanos total_time_nanos : ℕ, 1000000000 ≤ sleep_time_nanos →
        duration_as_secs total_time_nanos / duration_as_secs sleep_time_nanos < 2 ^ 32 →
        generate_fixed_config sleep_time_nanos total_time_nanos =
          Except.ok
            (duration_as_secs total_time_nanos / duration_as_secs sleep_time_nanos,
              sleep_time_nanos)) ∧
    (∀ sleep_time_nanos total_time_nanos : ℕ, 1000000000 ≤ sleep_time_nanos →
        2 ^ 32 ≤ duration_as_secs total_time_nanos / duration_as_secs sleep_time_nanos →
        generate_fixed_config sleep_time_nanos total_time_nanos =
          Except.error "Overflow") := by
  refine ⟨?_, ?_, ?_⟩
  · intro sleep total h
    have h0 : duration_as_secs sleep = 0 := Nat.div_eq_of_lt h
    simp [generate_fixed_config, h0]
  · intro sleep total h1 h2
    have hne : duration_as_secs sleep ≠ 0 := by
      have : 1 ≤ sleep / 1000000000 :=
        (Nat.one_le_div_iff (show 0 < 1000000000 by norm_num)).2 h1
      unfold duration_as_secs
      omega
    have h2a : duration_as_secs total / duration_as_secs sleep < 4294967296 := by
      simpa using h2
    simp [generate_fixed_config, hne, h2a]
  · intro sleep total h1 h2
    have hne : duration_as_secs sleep ≠ 0 := by
      have : 1 ≤ sleep / 1000000000 :=
        (Nat.one_le_div_iff (show 0 < 1000000000 by norm_num)).2 h1
      unfold duration_as_secs
      omega
    have h3 : ¬(duration_as_secs total / duration_as_secs sleep < 4294967296) := by
      have := Nat.not_lt.2 h2
      simpa using this
    simp [generate_fixed_config, hne, h3]

/-- Witness for `generate_fixed_config_behavior`: a 0.5 s interval
panics with division by zero; a 5 s interval with a 60 s budget yields 12
attempts; a 1 s interval with a huge budget overflows. -/
theorem generate_fixed_config_behavior_witness :
    500000000 < 1000000000 ∧
      generate_fixed_config 500000000 7 = Except.error "attempt to divide by zero" ∧
      generate_fixed_config 5000000000 60000000000 = Except.ok (12, 5000000000) ∧
      generate_fixed_config 1000000000 5000000000000000000 = Except.error "Overflow" :=
  ⟨by decide, generate_fixed_config_behavior.1 500000000 7 (by decide),
   generate_fixed_config_behavior.2.1 5000000000 60000000000 (by decide) (by decide),
   generate_fixed_config_behavior.2.2 1000000000 5000000000000000000 (by decide) (by decide)⟩

/-! ## C1: retry engine attempt count -/

/-- The base-10 logarithm quotient computed by the Rust code equals a
base-2 logarithm. -/
theorem logb_ten_ratio (x : ℝ) : Real.logb 10 x / Real.logb 10 2 = Real.logb 2 x := by
  unfold Real.logb
  have h10 : Real.log 10 ≠ 0 := ne_of_gt (Real.log_pos (by norm_num))
  have h2 : Real.log 2 ≠ 0 := ne_of_gt (Real.log_pos (by norm_num))
  field_simp

/-- At `(start, factor, cap) = (599, 2, 600)` the saturation step count is
`-10`, because `2 ^ (-10) ≤ 1/599 < 2 ^ (-9)`. -/
theorem saturation_steps_at_599 : saturation_steps 599 2 600 = -10 := by
  unfold saturation_steps
  have h : ((600 : ℝ) - 599) / 599 = 1 / 599 := by norm_num
  rw [h, logb_ten_ratio, Int.floor_eq_iff]
  constructor
  · rw [Real.le_logb_iff_rpow_le (by norm_num) (by norm_num), Real.rpow_intCast]
    rw [zpow_neg]
    norm_num
  · have h9 : ((-10 : ℤ) : ℝ) + 1 = ((-9 : ℤ) : ℝ) := by norm_num
    rw [h9, Real.logb_lt_iff_lt_rpow (by norm_num) (by norm_num), Real.rpow_intCast]
    rw [zpow_neg]
    norm_num

/-- At `(599, 2, 600)` the time to saturate evaluates to
`599 * (1 - 2 ^ (-10)) / (1 - 2) = -(612777/1024)`. -/
theorem time_to_saturate_at_599 : time_to_saturate 599 2 600 = -(612777 / 1024 : ℝ) := by
  unfold time_to_saturate
  rw [saturation_steps_at_599, Real.rpow_intCast, zpow_neg]
  norm_num

/-- C1, claim as stated is false: at
`(start, factor, cap, total) = (599 s, 2, 600 s, 0 s)` the hypotheses
`start < cap` and `factor > 1` hold, the closed-form formula evaluates to
`-9`, but the function returns `0`, because the Rust `as u32` cast clamps
the negative ceiling at zero. -/
theorem retry_attempt_count_claim_counterexample :
    ((0 : ℝ) < 599 ∧ (599 : ℝ) < 600 ∧ (1 : ℝ) < 2) ∧
      ((calculate_times_from_max_delay 599 2 600 0 : ℤ) ≠ retry_time_formula 599 2 600 0) := by
  refine ⟨by norm_num, ?_⟩
  have hcalc : calculate_times_from_max_delay 599 2 600 0 = 0 := by
    unfold calculate_times_from_max_delay
    rw [saturation_steps_at_599, time_to_saturate_at_599]
    have hc : ⌈((0 : ℝ) - -(612777 / 1024)) / 600 + ((-10 : ℤ) : ℝ)⌉ = -9 := by
      rw [Int.ceil_eq_iff]
      push_cast
      constructor <;> norm_num
    rw [hc]
    decide
  have hspec : retry_time_formula 599 2 600 0 = -9 := by
    unfold retry_time_formula
    rw [saturation_steps_at_599, time_to_saturate_at_599]
    have hc : ⌈((0 : ℝ) - -(612777 / 1024)) / 600⌉ = 1 := by
      rw [Int.ceil_eq_iff]
      push_cast
      constructor <;> norm_num
    rw [hc]
    decide
  rw [hcalc, hspec]
  decide

/-- C1 (corrected): for every `(start_delay, factor, cap, total_time)`
with `0 < start_delay < cap` and `factor > 1`, the computed attempt count
equals the closed-form `ceil((total_time - T_sat)/cap) + N_sat` clamped
into the `u32` range by the saturating cast (negative values to `0`,
values above `u32::MAX` to `u32::MAX`).  The identity
`ceil(steps + N_sat) = ceil(steps) + N_sat` holds because `N_sat` is an
integer. -/
theorem retry_attempt_count_matches_clamped_formula
    (start_delay fraction maximum_delay total_retry_time : ℝ)
    (_h1 : 0 < start_delay) (_h2 : start_delay < maximum_delay) (_h3 : 1 < fraction) :
    calculate_times_from_max_delay start_delay fraction maximum_delay total_retry_time =
      min
        (Int.toNat (retry_time_formula start_delay fraction maximum_delay total_retry_time))
        (2 ^ 32 - 1) := by
  unfold calculate_times_from_max_delay retry_time_formula
  rw [Int.ceil_add_int]

/-- Witness for `retry_attempt_count_matches_clamped_formula` at the
configuration `(1 s, 2, 600 s, 86400 s)` used by the scanner and tested
in the repository. -/
theorem retry_attempt_count_clamped_formula_witness :
    (0 : ℝ) < 1 ∧ (1 : ℝ) < 600 ∧ (1 : ℝ) < 2 ∧
      calculate_times_from_max_delay 1 2 600 86400 =
        min (Int.toNat (retry_time_formula 1 2 600 86400)) (2 ^ 32 - 1) :=
  ⟨by norm_num, by norm_num, by norm_num,
   retry_attempt_count_matches_clamped_formula 1 2 600 86400 (by norm_num) (by norm_num)
     (by norm_num)⟩
